import Mathlib

/-!
Shallow embedding of the `custom_agent_tutorial` repository
(`src/agent.py` and `src/tools/search.py`).

Network effects (the text-generation endpoint, the serper.dev search
provider, and page fetches) are opaque external capabilities; they are
modelled as explicit outcome values / oracle functions supplied to the
embedded operations.  Python dictionaries with a single key are modelled
as singleton association lists; Python `None` as `Option.none`; strings
manipulated character-wise (the scraping clean-up) as `List Char`.
-/

namespace CustomAgent

/-! ## Search provider replies (`src/tools/search.py`) -/

/-- One record of the `organic` list in a serper.dev reply.  Every field is
optional, mirroring the `result.get(...)` accesses in
`WebSearcher.format_results`. -/
structure OrganicResult where
  title : Option String
  link : Option String
  snippet : Option String
deriving DecidableEq, Repr

/-- `WebSearcher.format_results` (search.py lines 185-209): each organic
result becomes the block `Title: {title}\nLink: {link}\nSnippet: {snippet}\n---`
with placeholders for absent fields, and the blocks are joined with
newlines. -/
def format_results (organic_results : List OrganicResult) : String :=
  let result_strings := organic_results.map (fun result =>
    let title := result.title.getD "No Title"
    let link := result.link.getD "#"
    let snippet := result.snippet.getD "No snippet available."
    "Title: " ++ title ++ "\nLink: " ++ link ++ "\nSnippet: " ++ snippet ++ "\n---")
  String.intercalate "\n" result_strings

/-- The exceptions caught by `WebSearcher.fetch_search_results`
(search.py lines 250-255): `requests.exceptions.HTTPError`,
`requests.exceptions.RequestException` and `KeyError`, each carrying the
text that Python interpolates into the returned message. -/
inductive FetchException where
  | httpError (msg : String)
  | requestException (msg : String)
  | keyError (msg : String)
deriving DecidableEq, Repr

/-- `FetchException.isRequestsException e` holds for the two exception
classes of the `requests` library (transport / HTTP failures), as opposed
to the `KeyError` branch. -/
def FetchException.isRequestsException : FetchException → Prop
  | .httpError _ => True
  | .requestException _ => True
  | .keyError _ => False

instance : DecidablePred FetchException.isRequestsException := by
  intro e
  cases e <;> simp [FetchException.isRequestsException] <;> infer_instance

/-- A parsed serper.dev JSON reply: the `organic` key may be absent
(`none`) or present with a (possibly empty) list of records. -/
structure SerperResponse where
  organic : Option (List OrganicResult)
deriving DecidableEq, Repr

/-- What the provider call inside the `try` block of
`fetch_search_results` does: either some statement raises one of the
caught exceptions, or the reply parses into a `SerperResponse`. -/
inductive ProviderOutcome where
  | raises (e : FetchException)
  | returns (r : SerperResponse)
deriving DecidableEq, Repr

/-- `WebSearcher.fetch_search_results` (search.py lines 211-255), as a
function of the provider-call outcome: on a parsed reply it returns the
formatted `organic` results, or the literal "No organic results found."
when the key is absent; each caught exception is converted into a
descriptive string and returned as data. -/
def fetch_search_results (outcome : ProviderOutcome) : String :=
  match outcome with
  | .returns results =>
      match results.organic with
      | some organic => format_results organic
      | none => "No organic results found."
  | .raises (.httpError http_err) => "HTTP error occurred: " ++ http_err
  | .raises (.requestException req_err) => "Request exception occurred: " ++ req_err
  | .raises (.keyError key_err) => "Key error in handling response: " ++ key_err

/-! ## Scraping (`WebSearcher.scrape_website_content`) -/

/-- Python `str.strip()` on a line of characters: drop whitespace from
both ends. -/
def pyStrip (l : List Char) : List Char :=
  ((l.dropWhile Char.isWhitespace).reverse.dropWhile Char.isWhitespace).reverse

/-- The clean-up comprehension of `scrape_website_content`
(search.py line 290): `[line.strip() for line in text.splitlines() if line.strip()]`
— strip every line, keep only the non-blank results.  `text` (the output
of `soup.get_text(separator='\n')`) is represented by its list of
lines. -/
def clean_lines (text_lines : List (List Char)) : List (List Char) :=
  (text_lines.map pyStrip).filter (fun line => line ≠ [])

/-- `'\n'.join(...)` over character-lists. -/
def joinLines (lines : List (List Char)) : List Char :=
  match lines with
  | [] => []
  | l :: ls => l ++ (ls.map (fun x => '\n' :: x)).flatten

/-- The outcome of the page fetch + parse inside `scrape_website_content`:
either `requests` raises a `RequestException` (with its message), or the
fetch succeeds and BeautifulSoup's opaque `get_text(separator='\n')`
yields a text whose lines are `text_lines`. -/
inductive ScrapeOutcome where
  | raises (msg : String)
  | returns (text_lines : List (List Char))
deriving DecidableEq, Repr

/-- `WebSearcher.scrape_website_content` (search.py lines 257-296):
returns the singleton dictionary `{website_url: clean_text}` on success
and `{website_url: "Failed to retrieve content due to an error: ..."}`
when the request raises.  Dictionaries are association lists. -/
def scrape_website_content (website_url : String) (outcome : ScrapeOutcome) :
    List (String × List Char) :=
  match outcome with
  | .returns text_lines =>
      let clean_text := joinLines (clean_lines text_lines)
      [(website_url, clean_text)]
  | .raises e =>
      [(website_url, ("Failed to retrieve content due to an error: " ++ e).toList)]

/-! ## Request configurations

Every outbound HTTP request in the repository is built from a literal
`data` dictionary plus the keyword arguments of the `requests` call.  The
fields relevant to the claims are recorded here exactly as they appear at
each call site; `timeout = none` means the call passes no `timeout=`
keyword (the `requests` library default). -/

/-- The configuration of one outbound HTTP request: the sampling
temperature sent in the JSON body (absent for non-completion calls), the
`max_tokens` budget when present, whether the body forces a structured
tool call (`tools` + `tool_choice: required`), and the `timeout=` keyword
of the `requests` call. -/
structure RequestConfig where
  temperature : Option Int
  max_tokens : Option Nat
  structured : Bool
  timeout : Option Nat
deriving DecidableEq, Repr

/-- The completion request of `Agent.run_planning_agent`
(agent.py lines 43-52): free text, `self.temperature`, `self.max_tokens`,
`timeout=180`. -/
def run_planning_agent_request (self_temperature : Int) (self_max_tokens : Nat) :
    RequestConfig :=
  { temperature := some self_temperature
    max_tokens := some self_max_tokens
    structured := false
    timeout := some 180 }

/-- The completion request of `Agent.run_integration_agent`
(agent.py lines 65-74): free text, `self.temperature`, `self.max_tokens`,
`timeout=180`. -/
def run_integration_agent_request (self_temperature : Int) (self_max_tokens : Nat) :
    RequestConfig :=
  { temperature := some self_temperature
    max_tokens := some self_max_tokens
    structured := false
    timeout := some 180 }

/-- The completion request of `Agent.check_response`
(agent.py lines 109-118): structured (`tool_choice: required`), literal
`temperature: 0` (the instance temperature is not consulted), no
`max_tokens`, `timeout=180`. -/
def check_response_request (self_temperature : Int) : RequestConfig :=
  { temperature := some 0
    max_tokens := none
    structured := true
    timeout := some 180 }

/-- The completion request of `WebSearcher.generate_searches`
(search.py lines 112-121): structured, literal `temperature: 0`, and the
`requests.post` call passes no `timeout=` keyword. -/
def generate_searches_request : RequestConfig :=
  { temperature := some 0
    max_tokens := none
    structured := true
    timeout := none }

/-- The completion request of `WebSearcher.get_search_page`
(search.py lines 166-175): structured, literal `temperature: 0`, and the
`requests.post` call passes no `timeout=` keyword. -/
def get_search_page_request : RequestConfig :=
  { temperature := some 0
    max_tokens := none
    structured := true
    timeout := none }

/-- The search-provider request of `WebSearcher.fetch_search_results`
(search.py line 240): not a completion call (no temperature), and no
`timeout=` keyword. -/
def fetch_search_results_request : RequestConfig :=
  { temperature := none
    max_tokens := none
    structured := false
    timeout := none }

/-- The page fetch of `WebSearcher.scrape_website_content`
(search.py line 283): `requests.get(..., timeout=15)`. -/
def scrape_website_content_request : RequestConfig :=
  { temperature := none
    max_tokens := none
    structured := false
    timeout := some 15 }

/-! ## Verification (`Agent.check_response`) -/

/-- The decision tail of `Agent.check_response` (agent.py lines 121-128):
after the `meets_requirements` field has been extracted from the
structured reply, return `True` exactly when it equals the string
`'yes'`. -/
def check_response (meets_requirements : String) : Bool :=
  if meets_requirements = "yes" then true else false

/-! ## The orchestration loop (`Agent.execute`, agent.py lines 131-147) -/

/-- The four network-backed calls performed inside the loop body, in
source order (agent.py lines 142-145). -/
inductive AgentCall where
  | planning
  | toolUse
  | integration
  | check
deriving DecidableEq, Repr

/-- The external collaborators of `Agent.execute`: the planning
completion, the tool (`tool.use_tool`), the integration completion and
the verification completion, each a deterministic oracle.  `α` is the
type of the tool's output dictionary (the loop never inspects it). -/
structure Env (α : Type) where
  planner : String → Option String → Option α → Option String → String
  tool : String → String → α
  integrator : String → String → α → String
  checker : String → String → Bool

/-- The loop-local variables of `Agent.execute` just before each test of
the `while` condition (agent.py lines 134-140).  `plan`, `outputs` and
`response` start as Python `None`. -/
structure ExecState (α : Type) where
  meets_requirements : Bool
  plan : Option String
  outputs : Option α
  response : Option String
  iterations : Nat

/-- One pass through the body of the `while` loop of `Agent.execute`
(agent.py lines 141-145): increment `iterations`, then run the planning
agent, the tool, the integration agent and the response check in order,
each result overwriting the corresponding loop variable. -/
def execute_step (env : Env α) (query : String) (s : ExecState α) : ExecState α :=
  let iterations := s.iterations + 1
  let plan := env.planner query s.plan s.outputs s.response
  let outputs := env.tool plan query
  let response := env.integrator query plan outputs
  let meets_requirements := env.checker response query
  { meets_requirements := meets_requirements
    plan := some plan
    outputs := some outputs
    response := some response
    iterations := iterations }

/-- The `while` loop of `Agent.execute` (agent.py lines 140-145):
`while not meets_requirements and iterations < 5`, each pass executing
`execute_step`.  Alongside the state it accumulates the trace of
network-backed calls issued (one `planning`, `toolUse`, `integration`,
`check` per pass, in source order). -/
def execute_loop (env : Env α) (query : String) (s : ExecState α)
    (trace : List AgentCall) : ExecState α × List AgentCall :=
  if s.meets_requirements = false ∧ s.iterations < 5 then
    execute_loop env query (execute_step env query s)
      (trace ++ [.planning, .toolUse, .integration, .check])
  else
    (s, trace)
termination_by 5 - s.iterations
decreasing_by simp [execute_step]; omega

/-- `Agent.execute` (agent.py lines 131-147): the `iterations` parameter
(default 5) is immediately shadowed by the assignment `iterations = 0`
(line 138) before the loop runs with its fixed bound of 5.  Returns the
final loop state and the trace of calls. -/
def execute (iterations : Nat) (env : Env α) (query : String) :
    ExecState α × List AgentCall :=
  let iterations := 0
  execute_loop env query
    { meets_requirements := false
      plan := none
      outputs := none
      response := none
      iterations := iterations }
    []

/-! ## Auxiliary predicates -/

/-- `w` occurs as a contiguous substring of `s`. -/
def containsWord (w s : String) : Prop :=
  ∃ pre post, s = pre ++ w ++ post

/-- A character list contains two adjacent whitespace characters. -/
def hasAdjacentWhitespace : List Char → Bool
  | [] => false
  | [_] => false
  | a :: b :: rest =>
      (a.isWhitespace && b.isWhitespace) || hasAdjacentWhitespace (b :: rest)

/-- A concrete environment whose verification oracle always answers
false (the "verdict never becomes true" scenario). -/
def constFalseEnv : Env Unit where
  planner := fun _ _ _ _ => "plan"
  tool := fun _ _ => ()
  integrator := fun _ _ _ => "response"
  checker := fun _ _ => false

end CustomAgent

namespace CustomAgent

/-! ## Claims about the search tool -/

/-- C2: `check_response` returns true iff the extracted
`meets_requirements` string is exactly `"yes"`; variants such as `"Yes."`
or `"no, because..."` yield false. -/
theorem check_response_true_iff_exact_yes :
    (∀ s : String, check_response s = true ↔ s = "yes") ∧
    check_response "Yes." = false ∧
    check_response "no, because..." = false := by
  refine ⟨fun s => ?_, by decide, by decide⟩
  by_cases h : s = "yes" <;> simp [check_response, h]

/-- C3: for every URL and every fetch outcome (success or raised
transport/HTTP error), `scrape_website_content` returns a dictionary with
exactly one key, equal to the input URL; on failure the single value is
the error-description string (the function is total on the `raises`
outcome, i.e. the exception does not propagate). -/
theorem scrape_website_content_single_key_is_url (website_url : String)
    (outcome : ScrapeOutcome) :
    (scrape_website_content website_url outcome).map Prod.fst = [website_url] ∧
    scrape_website_content website_url (.raises "boom") =
      [(website_url, ("Failed to retrieve content due to an error: boom").toList)] := by
  constructor
  · cases outcome <;> rfl
  · rfl

/-- C4: on any raised `requests` exception (HTTP error or request
exception), `fetch_search_results` returns a string containing the word
"error" or "exception"; the function is total on those outcomes, so the
exception never propagates past its boundary. -/
theorem fetch_search_results_error_string_on_requests_exception
    (e : FetchException) (h : e.isRequestsException) :
    containsWord "error" (fetch_search_results (.raises e)) ∨
    containsWord "exception" (fetch_search_results (.raises e)) := by
  cases e with
  | httpError msg =>
      left
      refine ⟨"HTTP ", " occurred: " ++ msg, ?_⟩
      show "HTTP error occurred: " ++ msg = "HTTP " ++ "error" ++ (" occurred: " ++ msg)
      rfl
  | requestException msg =>
      right
      refine ⟨"Request ", " occurred: " ++ msg, ?_⟩
      show "Request exception occurred: " ++ msg = "Request " ++ "exception" ++ (" occurred: " ++ msg)
      rfl
  | keyError msg =>
      exact absurd h (by simp [FetchException.isRequestsException])

/-- Witness for C4: the HTTP-error outcome at a concrete message. -/
theorem fetch_search_results_error_string_on_requests_exception_witness :
    containsWord "error" (fetch_search_results (.raises (.httpError "404"))) ∨
    containsWord "exception" (fetch_search_results (.raises (.httpError "404"))) :=
  fetch_search_results_error_string_on_requests_exception (.httpError "404") (by decide)

/-- C5: a provider reply that parses but has no `organic` key makes
`fetch_search_results` return exactly the literal
"No organic results found." (and the function does not raise). -/
theorem fetch_search_results_no_organic_key (r : SerperResponse)
    (h : r.organic = none) :
    fetch_search_results (.returns r) = "No organic results found." := by
  simp [fetch_search_results, h]

/-- Witness for C5 at the concrete reply without `organic`. -/
theorem fetch_search_results_no_organic_key_witness :
    fetch_search_results (.returns ⟨none⟩) = "No organic results found." :=
  fetch_search_results_no_organic_key ⟨none⟩ rfl

/-- C9: a provider reply whose `organic` key is the empty list makes
`fetch_search_results` return the empty string (the result of
`format_results` on `[]`), not the "No organic results found." message. -/
theorem fetch_search_results_empty_organic_list (r : SerperResponse)
    (h : r.organic = some []) :
    fetch_search_results (.returns r) = "" ∧
    fetch_search_results (.returns r) ≠ "No organic results found." := by
  simp [fetch_search_results, h, format_results, String.intercalate]

/-- Witness for C9 at the concrete reply with an empty `organic` list. -/
theorem fetch_search_results_empty_organic_list_witness :
    fetch_search_results (.returns ⟨some []⟩) = "" ∧
    fetch_search_results (.returns ⟨some []⟩) ≠ "No organic results found." :=
  fetch_search_results_empty_organic_list ⟨some []⟩ rfl

/-! ## Claims about request configurations -/

/-- Counterexample to C7: the search-query-generation completion request
(`WebSearcher.generate_searches`) is issued with no `timeout=` keyword at
all, not with a 180-second timeout. -/
theorem generate_searches_request_no_180_timeout :
    generate_searches_request.timeout = none ∧
    generate_searches_request.timeout ≠ some 180 := by
  constructor <;> decide

/-- C7 (amended): the planning, integration and verification completion
requests use a fixed 180-second timeout; the search-query-generation and
best-page-selection completion requests, like the search-provider call,
pass no timeout (library default); the page fetch uses a 15-second
timeout. -/
theorem request_timeouts_amended (t : Int) (m : Nat) :
    (run_planning_agent_request t m).timeout = some 180 ∧
    (run_integration_agent_request t m).timeout = some 180 ∧
    (check_response_request t).timeout = some 180 ∧
    generate_searches_request.timeout = none ∧
    get_search_page_request.timeout = none ∧
    fetch_search_results_request.timeout = none ∧
    scrape_website_content_request.timeout = some 15 :=
  ⟨rfl, rfl, rfl, rfl, rfl, rfl, rfl⟩

/-- C10: every structured completion request (`generate_searches`,
`get_search_page`, `check_response`) carries temperature 0 whatever
temperature the agent was configured with, while the free-text planning
and integration requests carry the configured temperature. -/
theorem structured_requests_temperature_zero (t t' : Int) (m : Nat) :
    (check_response_request t).temperature = some 0 ∧
    check_response_request t = check_response_request t' ∧
    generate_searches_request.temperature = some 0 ∧
    get_search_page_request.temperature = some 0 ∧
    (run_planning_agent_request t m).temperature = some t ∧
    (run_integration_agent_request t m).temperature = some t :=
  ⟨rfl, rfl, rfl, rfl, rfl, rfl⟩

/-! ## Lemmas about `pyStrip` and `clean_lines` -/

/-- The head surviving a `dropWhile` does not satisfy the predicate. -/
theorem dropWhile_head_eq_false {α : Type} (p : α → Bool) :
    ∀ (l : List α) (x : α) (xs : List α), l.dropWhile p = x :: xs → p x = false := by
  intro l
  induction l with
  | nil => intro x xs h; simp at h
  | cons a as ih =>
      intro x xs h
      by_cases hp : p a = true
      · rw [List.dropWhile_cons_of_pos hp] at h
        exact ih x xs h
      · rw [List.dropWhile_cons_of_neg hp] at h
        cases h
        simpa using hp

/-- `dropWhile` is idempotent. -/
theorem dropWhile_idem {α : Type} (p : α → Bool) (l : List α) :
    (l.dropWhile p).dropWhile p = l.dropWhile p := by
  cases hl : l.dropWhile p with
  | nil => rfl
  | cons x xs =>
      have hx := dropWhile_head_eq_false p l x xs hl
      rw [List.dropWhile_cons_of_neg (by simp [hx])]

/-- The last character of a stripped line is not whitespace. -/
theorem pyStrip_getLast_not_whitespace (l : List Char) (c : Char)
    (h : (pyStrip l).getLast? = some c) : c.isWhitespace = false := by
  unfold pyStrip at h
  rw [List.getLast?_reverse] at h
  cases hd : (((l.dropWhile Char.isWhitespace).reverse).dropWhile Char.isWhitespace) with
  | nil => rw [hd] at h; simp at h
  | cons x xs =>
      rw [hd] at h
      simp only [List.head?_cons, Option.some.injEq] at h
      subst h
      exact dropWhile_head_eq_false _ _ _ _ hd

/-- The first character of a stripped line is not whitespace. -/
theorem pyStrip_head_not_whitespace (l : List Char) (c : Char)
    (h : (pyStrip l).head? = some c) : c.isWhitespace = false := by
  unfold pyStrip at h
  rw [List.head?_reverse] at h
  -- h : (dropWhile ws (reverse (dropWhile ws l))).getLast? = some c
  obtain ⟨t, ht⟩ :=
    List.dropWhile_suffix (l := (l.dropWhile Char.isWhitespace).reverse)
      (p := Char.isWhitespace)
  -- ht : t ++ dropWhile ws (reverse (dropWhile ws l)) = reverse (dropWhile ws l)
  have hrev := congrArg List.reverse ht
  rw [List.reverse_append, List.reverse_reverse] at hrev
  -- hrev : reverse (dropWhile ws (reverse A)) ++ reverse t = dropWhile ws l
  have hc : (l.dropWhile Char.isWhitespace).head? = some c := by
    rw [← List.head?_reverse] at h
    cases hx : ((l.dropWhile Char.isWhitespace).reverse.dropWhile Char.isWhitespace).reverse with
    | nil => rw [hx] at h; simp at h
    | cons y ys =>
        rw [hx] at h
        simp only [List.head?_cons, Option.some.injEq] at h
        rw [← hrev, hx]
        simp [h]
  cases hA : l.dropWhile Char.isWhitespace with
  | nil => rw [hA] at hc; simp at hc
  | cons y ys =>
      rw [hA] at hc
      simp only [List.head?_cons, Option.some.injEq] at hc
      subst hc
      exact dropWhile_head_eq_false _ _ _ _ hA

/-- Membership in the cleaned line list: every kept line is the strip of
some input line and is non-blank. -/
theorem clean_lines_mem (text_lines : List (List Char)) (l : List Char)
    (h : l ∈ clean_lines text_lines) :
    l ≠ [] ∧ ∃ raw ∈ text_lines, l = pyStrip raw := by
  unfold clean_lines at h
  rw [List.mem_filter] at h
  obtain ⟨hmem, hne⟩ := h
  rw [List.mem_map] at hmem
  obtain ⟨raw, hraw, hl⟩ := hmem
  exact ⟨by simpa using hne, raw, hraw, hl.symm⟩

/-! ## Claims about scraping clean-up (C6) -/

/-- Counterexample to C6: on a successful fetch whose extracted text is
the single line `"water  boils"`, the returned content still contains
the two adjacent spaces — adjacent whitespace inside a line is not
collapsed by `scrape_website_content`. -/
theorem scrape_website_content_keeps_adjacent_whitespace :
    scrape_website_content "https://example.com" (.returns ["water  boils".toList]) =
      [("https://example.com", "water  boils".toList)] ∧
    hasAdjacentWhitespace "water  boils".toList = true := by
  constructor
  · rfl
  · decide

/-- C6 (amended): on a successful fetch, `scrape_website_content` returns
the parser-extracted text with each line stripped of leading and
trailing whitespace and blank lines removed (whitespace inside a line is
preserved; script/style/markup removal is delegated to the opaque
`get_text`): every kept line is the strip of an input line, is
non-empty, and neither starts nor ends with whitespace. -/
theorem scrape_website_content_strips_lines (website_url : String)
    (text_lines : List (List Char)) (l : List Char)
    (h : l ∈ clean_lines text_lines) :
    scrape_website_content website_url (.returns text_lines) =
      [(website_url, joinLines (clean_lines text_lines))] ∧
    l ≠ [] ∧
    (∃ raw ∈ text_lines, l = pyStrip raw) ∧
    (∀ c, l.head? = some c → c.isWhitespace = false) ∧
    (∀ c, l.getLast? = some c → c.isWhitespace = false) := by
  obtain ⟨hne, raw, hraw, hl⟩ := clean_lines_mem text_lines l h
  refine ⟨rfl, hne, ⟨raw, hraw, hl⟩, ?_, ?_⟩
  · intro c hc
    exact pyStrip_head_not_whitespace raw c (hl ▸ hc)
  · intro c hc
    exact pyStrip_getLast_not_whitespace raw c (hl ▸ hc)

/-- Witness for the amended C6 at a concrete page text. -/
theorem scrape_website_content_strips_lines_witness :
    ("a  b".toList ∈ clean_lines [" a  b  ".toList]) ∧
    (scrape_website_content "https://example.com" (.returns [" a  b  ".toList]) =
      [("https://example.com", joinLines (clean_lines [" a  b  ".toList]))] ∧
    "a  b".toList ≠ [] ∧
    (∃ raw ∈ [" a  b  ".toList], "a  b".toList = pyStrip raw) ∧
    (∀ c, "a  b".toList.head? = some c → c.isWhitespace = false) ∧
    (∀ c, "a  b".toList.getLast? = some c → c.isWhitespace = false)) :=
  ⟨by decide,
   scrape_website_content_strips_lines "https://example.com" [" a  b  ".toList]
     "a  b".toList (by decide)⟩

/-! ## Lemmas about the orchestration loop -/

/-- `execute_step` increments the iteration counter by one. -/
theorem execute_step_iterations {α : Type} (env : Env α) (query : String)
    (s : ExecState α) : (execute_step env query s).iterations = s.iterations + 1 :=
  rfl

/-- `execute_step` stores the checker's verdict on the new response. -/
theorem execute_step_meets {α : Type} (env : Env α) (query : String)
    (s : ExecState α) :
    (execute_step env query s).meets_requirements =
      env.checker
        (env.integrator query (env.planner query s.plan s.outputs s.response)
          (env.tool (env.planner query s.plan s.outputs s.response) query))
        query :=
  rfl

/-- Appending one loop pass's call block raises every call count by
exactly one. -/
theorem count_call_block (trace : List AgentCall) (c : AgentCall) :
    (trace ++ [AgentCall.planning, AgentCall.toolUse, AgentCall.integration,
      AgentCall.check]).count c = trace.count c + 1 := by
  have hblock : ([AgentCall.planning, AgentCall.toolUse, AgentCall.integration,
      AgentCall.check] : List AgentCall).count c = 1 := by
    cases c <;> rfl
  rw [List.count_append, hblock]

/-- The loop never pushes the iteration counter above 5 (fuel-indexed
induction on the remaining iterations). -/
theorem execute_loop_iterations_le {α : Type} (env : Env α) (query : String) :
    ∀ (n : Nat) (s : ExecState α) (trace : List AgentCall),
      5 - s.iterations ≤ n → s.iterations ≤ 5 →
      (execute_loop env query s trace).1.iterations ≤ 5 := by
  intro n
  induction n with
  | zero =>
      intro s trace hn h5
      rw [execute_loop, if_neg]
      · exact h5
      · rintro ⟨-, hlt⟩
        omega
  | succ n ih =>
      intro s trace hn h5
      by_cases hc : s.meets_requirements = false ∧ s.iterations < 5
      · rw [execute_loop, if_pos hc]
        refine ih _ _ ?_ ?_
        · show 5 - (s.iterations + 1) ≤ n
          omega
        · show s.iterations + 1 ≤ 5
          omega
      · rw [execute_loop, if_neg hc]
        exact h5

/-- With a checker that never answers true, the loop runs the counter all
the way to 5. -/
theorem execute_loop_iterations_eq_five {α : Type} (env : Env α) (query : String)
    (hchk : ∀ r q', env.checker r q' = false) :
    ∀ (n : Nat) (s : ExecState α) (trace : List AgentCall),
      5 - s.iterations ≤ n → s.meets_requirements = false → s.iterations ≤ 5 →
      (execute_loop env query s trace).1.iterations = 5 := by
  intro n
  induction n with
  | zero =>
      intro s trace hn hm h5
      rw [execute_loop, if_neg]
      · show s.iterations = 5
        omega
      · rintro ⟨-, hlt⟩
        omega
  | succ n ih =>
      intro s trace hn hm h5
      by_cases hlt : s.iterations < 5
      · rw [execute_loop, if_pos ⟨hm, hlt⟩]
        refine ih _ _ ?_ ?_ ?_
        · show 5 - (s.iterations + 1) ≤ n
          omega
        · rw [execute_step_meets]
          exact hchk _ _
        · show s.iterations + 1 ≤ 5
          omega
      · rw [execute_loop, if_neg]
        · show s.iterations = 5
          omega
        · rintro ⟨-, h⟩
          exact hlt h

/-- The final trace contains, for every call kind, the starting count
plus one occurrence per iteration performed. -/
theorem execute_loop_count {α : Type} (env : Env α) (query : String) (c : AgentCall) :
    ∀ (n : Nat) (s : ExecState α) (trace : List AgentCall),
      5 - s.iterations ≤ n →
      s.iterations ≤ (execute_loop env query s trace).1.iterations ∧
      (execute_loop env query s trace).2.count c =
        trace.count c + ((execute_loop env query s trace).1.iterations - s.iterations) := by
  intro n
  induction n with
  | zero =>
      intro s trace hn
      rw [execute_loop, if_neg]
      · refine ⟨Nat.le_refl _, ?_⟩
        show trace.count c = trace.count c + (s.iterations - s.iterations)
        omega
      · rintro ⟨-, hlt⟩
        omega
  | succ n ih =>
      intro s trace hn
      by_cases hc : s.meets_requirements = false ∧ s.iterations < 5
      · rw [execute_loop, if_pos hc]
        have h := ih (execute_step env query s)
          (trace ++ [AgentCall.planning, AgentCall.toolUse, AgentCall.integration,
            AgentCall.check])
          (by rw [execute_step_iterations]; omega)
        rw [execute_step_iterations] at h
        rw [count_call_block] at h
        obtain ⟨h1, h2⟩ := h
        exact ⟨by omega, by omega⟩
      · rw [execute_loop, if_neg hc]
        refine ⟨Nat.le_refl _, ?_⟩
        show trace.count c = trace.count c + (s.iterations - s.iterations)
        omega

/-! ## Claims about `Agent.execute` (C1, C8) -/

/-- C1: when the verification oracle never returns true, the `while`
loop of `Agent.execute` performs exactly 5 iterations and exits; and in
every completed run the numbers of planning-agent, integration-agent and
response-check invocations are equal. -/
theorem execute_five_iterations_and_balanced_calls {α : Type} (env : Env α)
    (query : String) (iterations_arg : Nat) :
    ((∀ r q', env.checker r q' = false) →
      (execute iterations_arg env query).1.iterations = 5) ∧
    (execute iterations_arg env query).2.count .planning =
      (execute iterations_arg env query).2.count .integration ∧
    (execute iterations_arg env query).2.count .integration =
      (execute iterations_arg env query).2.count .check := by
  refine ⟨?_, ?_, ?_⟩
  · intro hchk
    show (execute_loop env query ⟨false, none, none, none, 0⟩ []).1.iterations = 5
    exact execute_loop_iterations_eq_five env query hchk 5 _ []
      (by show 5 - 0 ≤ 5; decide) rfl (by show 0 ≤ 5; decide)
  · show (execute_loop env query ⟨false, none, none, none, 0⟩ []).2.count .planning =
      (execute_loop env query ⟨false, none, none, none, 0⟩ []).2.count .integration
    have hp := (execute_loop_count env query .planning 5
      ⟨false, none, none, none, 0⟩ [] (by show 5 - 0 ≤ 5; decide)).2
    have hi := (execute_loop_count env query .integration 5
      ⟨false, none, none, none, 0⟩ [] (by show 5 - 0 ≤ 5; decide)).2
    simp only [List.count_nil] at hp hi
    omega
  · show (execute_loop env query ⟨false, none, none, none, 0⟩ []).2.count .integration =
      (execute_loop env query ⟨false, none, none, none, 0⟩ []).2.count .check
    have hi := (execute_loop_count env query .integration 5
      ⟨false, none, none, none, 0⟩ [] (by show 5 - 0 ≤ 5; decide)).2
    have hk := (execute_loop_count env query .check 5
      ⟨false, none, none, none, 0⟩ [] (by show 5 - 0 ≤ 5; decide)).2
    simp only [List.count_nil] at hi hk
    omega

/-- Witness for C1: the always-false checker environment, called with an
`iterations` argument of 7. -/
theorem execute_five_iterations_and_balanced_calls_witness :
    (execute 7 constFalseEnv "query").1.iterations = 5 ∧
    (execute 7 constFalseEnv "query").2.count .planning =
      (execute 7 constFalseEnv "query").2.count .integration ∧
    (execute 7 constFalseEnv "query").2.count .integration =
      (execute 7 constFalseEnv "query").2.count .check := by
  have h := execute_five_iterations_and_balanced_calls constFalseEnv "query" 7
  exact ⟨h.1 (fun r q' => rfl), h.2.1, h.2.2⟩

/-- C8: the `iterations` argument of `Agent.execute` has no observable
effect — any two argument values give identical runs — because it is
overwritten with 0 before the loop, whose cap is the fixed constant 5
(so the final counter never exceeds 5). -/
theorem execute_ignores_iterations_argument {α : Type} (a b : Nat) (env : Env α)
    (query : String) :
    execute a env query = execute b env query ∧
    (execute a env query).1.iterations ≤ 5 := by
  constructor
  · rfl
  · show (execute_loop env query ⟨false, none, none, none, 0⟩ []).1.iterations ≤ 5
    exact execute_loop_iterations_le env query 5 _ []
      (by show 5 - 0 ≤ 5; decide) (by show 0 ≤ 5; decide)

end CustomAgent
